import Mathlib

/-!
Shallow embedding of the django-safedelete deletion-policy engine.

Embedded source (src/safedelete/):
- utils.py: is_safedelete_cls, is_deleted, get_collector (Django NestedObjects
  wrapper), get_objects_to_delete, perform_updates, can_hard_delete,
  concatenate_delete_returns;
- models.py: SafeDeleteModel.save, SafeDeleteModel.undelete,
  SafeDeleteModel.delete;
- queryset.py: SafeDeleteQueryset.delete, SafeDeleteQueryset.create,
  SafeDeleteQueryset._filter_visibility, _check_field_filter, __getattribute__,
  _clone.

Modelling conventions:
- config.py is not under src/, so its constants are modelled from the spec:
  the sentinel DEFAULT_DELETED ("not deleted") is the natural number 0 and a
  soft-delete timestamp is any other natural number;
- a Django model class is identified by a natural number; a Schema gives each
  model class its optional safedelete policy (none mirrors a class for which
  utils.is_safedelete_cls is False) and its optional single foreign-key field
  (target model class and declared on_delete behaviour);
- a database is a list of records; a record is identified by (model, pk);
- Django's deletion Collector (an external collaborator wrapped by
  utils.get_collector) is modelled per its documented semantics and spec
  section 4.1: collector.data is the cascade closure of the roots through
  relations declared with on_delete=CASCADE, grouped by model class, and
  collector.field_updates groups the records whose on_delete=SET_NULL foreign
  key targets a collected record;
- managers.py is not under src/; per the spec and the models.py docstrings the
  default manager (model.objects) has INVISIBLE visibility, so queries and bulk
  updates through it only see rows whose deleted column equals the sentinel,
  and deleted_objects only sees rows whose deleted column differs from it.
-/

namespace Safedelete

/-- Decidable equality for Except results, used to evaluate the embedded
operations on concrete inputs. -/
instance {ε α : Type} [DecidableEq ε] [DecidableEq α] : DecidableEq (Except ε α) := fun a b =>
  match a, b with
  | .error x, .error y =>
      if h : x = y then .isTrue (by rw [h])
      else .isFalse (fun he => h (by cases he; rfl))
  | .ok x, .ok y =>
      if h : x = y then .isTrue (by rw [h])
      else .isFalse (fun he => h (by cases he; rfl))
  | .error _, .ok _ => .isFalse (fun he => Except.noConfusion he)
  | .ok _, .error _ => .isFalse (fun he => Except.noConfusion he)

/-- Deletion policies from config.py (modelled from the spec; config.py is not
under src/): NO_DELETE, HARD_DELETE, HARD_DELETE_NOCASCADE, SOFT_DELETE and
SOFT_DELETE_CASCADE. -/
inductive Policy where
  | noDelete
  | hardDelete
  | hardDeleteNoCascade
  | softDelete
  | softDeleteCascade
deriving DecidableEq, Repr

/-- Declared on-delete behaviour of a foreign-key relation, as consumed by the
collector: models.CASCADE or models.SET_NULL. -/
inductive OnDelete where
  | cascade
  | setNull
deriving DecidableEq, Repr

/-- Sentinel value of the deleted column (config.DEFAULT_DELETED, the epoch
timestamp; modelled from the spec as 0). -/
def DEFAULT_DELETED : Nat := 0

/-- One database row / in-memory instance: model class, primary key, deleted
column, and the value of the model's single foreign-key field (none when the
field is null or the model declares no foreign key). -/
structure Record where
  model : Nat
  pk : Nat
  deleted : Nat
  fk : Option Nat
deriving DecidableEq, Repr

abbrev DB := List Record

/-- Static schema information: the safedelete policy attached to each model
class (none when the class is not a SafeDeleteModel subclass) and the model's
single foreign-key declaration (target model class and on_delete behaviour). -/
structure Schema where
  policyOf : Nat → Option Policy
  fkOf : Nat → Option (Nat × OnDelete)

/-- utils.is_safedelete_cls: whether a model class inherits from
SafeDeleteModel, i.e. carries a deletion policy. -/
def is_safedelete_cls (sch : Schema) (m : Nat) : Bool :=
  (sch.policyOf m).isSome

/-- utils.is_deleted: obj.deleted != DEFAULT_DELETED. -/
def is_deleted (r : Record) : Bool :=
  decide (r.deleted ≠ DEFAULT_DELETED)

/-- Identity of a Django instance: class plus primary key (Django's Model
equality). -/
def recId (r : Record) : Nat × Nat := (r.model, r.pk)

/-- SafeDeleteModel._get_safelete_policy with force_policy already resolved by
the caller: the class policy, which defaults to SOFT_DELETE on
SafeDeleteModel itself. -/
def getPolicy (sch : Schema) (m : Nat) : Policy :=
  (sch.policyOf m).getD .softDelete

/-- Whether record r has a cascade-declared foreign key whose target identity
is already in the collected set s. -/
def cascadeFkInto (sch : Schema) (s : List (Nat × Nat)) (r : Record) : Bool :=
  match sch.fkOf r.model, r.fk with
  | some (t, OnDelete.cascade), some v => decide ((t, v) ∈ s)
  | _, _ => false

/-- One expansion step of the collector's cascade traversal: add every record
not yet collected whose cascade foreign key points into the collected set. -/
def cascadeStep (sch : Schema) (db : DB) (s : List (Nat × Nat)) : List (Nat × Nat) :=
  s ++ (db.filter (fun r => !decide (recId r ∈ s) && cascadeFkInto sch s r)).map recId

/-- Identities of the cascade closure computed by Django's Collector.collect:
the roots plus everything reachable through on_delete=CASCADE relations.
Iterating one step per database row reaches the fixpoint, since every
productive step adds at least one of the finitely many rows. -/
def cascadeIds (sch : Schema) (db : DB) (roots : List (Nat × Nat)) : List (Nat × Nat) :=
  (List.range db.length).foldl (fun s _ => cascadeStep sch db s) roots

/-- First-occurrence deduplication, mirroring insertion order of an
OrderedDict keyed by model class. -/
def dedup (l : List Nat) : List Nat :=
  l.foldl (fun acc m => if m ∈ acc then acc else acc ++ [m]) []

/-- collector.data of utils.get_collector: the cascade closure grouped by
model class in collection order; note that it also contains the root
object(s) themselves. -/
def collectorData (sch : Schema) (db : DB) (objs : List Record) : List (Nat × List Record) :=
  let ids := cascadeIds sch db (objs.map recId)
  let ms := dedup (ids.map (·.1))
  ms.map (fun m => (m, db.filter (fun r => decide (r.model = m ∧ (m, r.pk) ∈ ids))))

/-- utils.get_objects_to_delete: the collector's cascade groups with the input
objects removed from their own model's group, and, for safedelete models,
already-deleted instances removed unless return_deleted is set; empty groups
are dropped. -/
def get_objects_to_delete (sch : Schema) (db : DB) (objs : List Record)
    (return_deleted : Bool) : List (Nat × List Record) :=
  let data := collectorData sch db objs
  (data.map (fun g =>
    let inst1 :=
      if objs.head?.map (·.model) = some g.1 then
        g.2.filter (fun i => !objs.any (fun o => decide (recId o = recId i)))
      else g.2
    let inst2 :=
      if is_safedelete_cls sch g.1 then
        inst1.filter (fun i => !is_deleted i || return_deleted)
      else inst1
    (g.1, inst2))).filter (fun g => !g.2.isEmpty)

/-- Whether record r, considered as a row of model class m, has a SET_NULL
foreign key pointing into the collected target set. -/
def setNullHits (sch : Schema) (targets : List (Nat × Nat)) (m : Nat) (r : Record) : Bool :=
  match sch.fkOf m, r.fk with
  | some (t, OnDelete.setNull), some v => decide (r.model = m ∧ (t, v) ∈ targets)
  | _, _ => false

/-- collector.field_updates of utils.get_collector: for every model class with
a SET_NULL foreign key, the group of its rows whose foreign key targets a
collected record (value to write: null); groups with no affected row are not
created. -/
def fieldUpdates (sch : Schema) (db : DB) (objs : List Record) : List (Nat × List Record) :=
  let targets := cascadeIds sch db (objs.map recId)
  let ms := dedup (db.map (·.model))
  (ms.map (fun m => (m, db.filter (setNullHits sch targets m)))).filter
    (fun g => !g.2.isEmpty)

/-- Bulk update model.objects.filter(pk__in=pks).update(field=None) as issued
by utils.perform_updates. Modelled from the spec: managers.py is not under
src/, and per the spec the default manager's visibility is INVISIBLE, so when
the model is a safedelete model the update only touches rows whose deleted
column equals the sentinel; for a plain Django model every listed row is
touched. -/
def bulkUpdateOne (sch : Schema) (m : Nat) (pks : List Nat) (r : Record) : Record :=
  if r.model = m ∧ r.pk ∈ pks ∧ (is_safedelete_cls sch m → is_deleted r = false) then
    { r with fk := none }
  else r

def applyBulkUpdate (sch : Schema) (db : DB) (m : Nat) (pks : List Nat) : DB :=
  db.map (bulkUpdateOne sch m pks)

/-- One iteration of the perform_updates loop: execute the group's bulk
update and record the executed operation (model class and the pk list passed
to the filter). -/
def performUpdatesStep (sch : Schema) (acc : DB × List (Nat × List Nat))
    (g : Nat × List Record) : DB × List (Nat × List Nat) :=
  let pks := g.2.map (·.pk)
  (applyBulkUpdate sch acc.1 g.1 pks, acc.2 ++ [(g.1, pks)])

/-- utils.perform_updates: apply every field-update group of the collector as
one bulk update. Besides the updated database this returns the executed
operations (model class and the pk list passed to the filter). Note the
source computes a pks list that excludes already-deleted instances, but uses
it only to decide logging: the update itself always runs, with the full
unfiltered pk list of the group. -/
def perform_updates (sch : Schema) (db : DB) (objs : List Record) :
    DB × List (Nat × List Nat) :=
  (fieldUpdates sch db objs).foldl (performUpdatesStep sch) (db, [])

/-- utils.can_hard_delete: deleting obj would delete nothing else, i.e.
get_objects_to_delete (with its default exclusion of already-deleted
instances) is empty. Field-update groups are not consulted. -/
def can_hard_delete (sch : Schema) (db : DB) (obj : Record) : Bool :=
  (get_objects_to_delete sch db [obj] false).isEmpty

/-- Return value of a delete: total row count and per-model-class counts (the
dict keyed by model label in the source). -/
abbrev DeleteResult := Nat × List (Nat × Nat)

/-- Additive merge of one per-model count into the accumulated dict
(setdefault followed by +=). -/
def addCount (acc : List (Nat × Nat)) (m c : Nat) : List (Nat × Nat) :=
  if acc.any (fun p => p.1 == m) then
    acc.map (fun p => if p.1 = m then (p.1, p.2 + c) else p)
  else acc ++ [(m, c)]

/-- utils.concatenate_delete_returns. -/
def concatenate_delete_returns (rs : List DeleteResult) : DeleteResult :=
  rs.foldl (fun acc r => (acc.1 + r.1, r.2.foldl (fun l p => addCount l p.1 p.2) acc.2))
    (0, [])

/-- Whether r's SET_NULL foreign key targets one of the physically deleted
records (part of Django's native cascading delete). -/
def nullifyHit (sch : Schema) (targets : List (Nat × Nat)) (r : Record) : Bool :=
  match sch.fkOf r.model, r.fk with
  | some (t, OnDelete.setNull), some v => decide ((t, v) ∈ targets)
  | _, _ => false

/-- Nullify r's SET_NULL foreign key when it targets a physically deleted
record (part of Django's native cascading delete). -/
def nullifyAgainst (sch : Schema) (targets : List (Nat × Nat)) (r : Record) : Record :=
  if nullifyHit sch targets r then { r with fk := none } else r

/-- Database left behind by Django's native cascading physical delete: the
rows outside the cascade closure, with SET_NULL foreign keys into the closure
nullified. -/
def djangoDeleteDb (sch : Schema) (db : DB) (roots : List (Nat × Nat)) : DB :=
  (db.filter (fun r => !decide (recId r ∈ cascadeIds sch db roots))).map
    (nullifyAgainst sch (cascadeIds sch db roots))

/-- Django's native cascading physical delete (super().delete() in models.py
and queryset.py): remove the whole cascade closure of the roots regardless of
soft-deletion state, apply SET_NULL updates to the survivors, and return the
per-model counts of removed rows. -/
def djangoDelete (sch : Schema) (db : DB) (roots : List (Nat × Nat)) : DeleteResult × DB :=
  let removed := db.filter (fun r => decide (recId r ∈ cascadeIds sch db roots))
  ((removed.length,
    (dedup (removed.map (·.model))).map
      (fun m => (m, (removed.filter (fun r => r.model == m)).length))),
   djangoDeleteDb sch db roots)

/-- Run-time failure of the Python code: the statement
fast_deletes, objects_to_delete = get_objects_to_delete(...) in models.py
(lines 110 and 175) unpacks the single OrderedDict returned by
utils.get_objects_to_delete into two names. With k dict keys this raises
ValueError for k different from 2, and with exactly 2 keys the two names are
bound to the two model-class keys, so the following iteration of fast_deletes
(a model class) raises TypeError. Every path raises, and transaction.atomic
rolls the whole operation back. -/
inductive PyErr where
  | unpackOrIter
deriving DecidableEq, Repr

/-- Persist only the deleted column of one record (models.py line 167,
super().save(update_fields=["deleted"]) after self.deleted = timezone.now()). -/
def softDeleteOne (db : DB) (rid : Nat × Nat) (now : Nat) : DB :=
  db.map (fun r => if recId r = rid then { r with deleted := now } else r)

/-- SafeDeleteModel.delete (models.py lines 131-194) at a given effective
policy. NO_DELETE returns (0, dict()); HARD_DELETE delegates to Django's
native cascading delete; HARD_DELETE_NOCASCADE recurses with forced policy
SOFT_DELETE when can_hard_delete is false and HARD_DELETE otherwise (the
source recursion only re-dispatches on the forced policy, so the two target
branches are inlined here); SOFT_DELETE marks the record deleted, persisting
only that column, and returns (1, dict(label=1)); SOFT_DELETE_CASCADE
performs the SOFT_DELETE steps and then reaches models.py line 175, whose
two-name unpacking of the OrderedDict returned by utils.get_objects_to_delete
raises (see PyErr), so the transaction rolls back and the call raises with no
state change. -/
def modelDeleteEff (sch : Schema) (db : DB) (self : Record) (now : Nat) :
    Policy → Except PyErr (DeleteResult × DB)
  | .noDelete => .ok ((0, []), db)
  | .hardDelete => .ok (djangoDelete sch db [recId self])
  | .hardDeleteNoCascade =>
      if !can_hard_delete sch db self then
        .ok ((1, [(self.model, 1)]), softDeleteOne db (recId self) now)
      else
        .ok (djangoDelete sch db [recId self])
  | .softDelete => .ok ((1, [(self.model, 1)]), softDeleteOne db (recId self) now)
  | .softDeleteCascade => .error .unpackOrIter

/-- SafeDeleteModel.delete: resolve the effective policy from force_policy
and the class policy, then run the policy branch. -/
def modelDelete (sch : Schema) (db : DB) (self : Record) (force : Option Policy)
    (now : Nat) : Except PyErr (DeleteResult × DB) :=
  modelDeleteEff sch db self now (force.getD (getPolicy sch self.model))

/-- Rows of the default-visibility queryset model.objects.filter(pk__in=pks):
the listed rows of the model that are not soft-deleted. Modelled from the
spec: managers.py is not under src/, and the default manager's INVISIBLE
visibility injects deleted == sentinel before any evaluation (count, update,
iteration, delete). -/
def qsLiveMembers (db : DB) (m : Nat) (pks : List Nat) : List Record :=
  db.filter (fun r => decide (r.model = m ∧ r.pk ∈ pks ∧ is_deleted r = false))

/-- SOFT_DELETE branch of SafeDeleteQueryset.delete: count the visible rows,
then bulk-update their deleted column to now, returning
(count, dict(label=count)). -/
def qsSoftDelete (db : DB) (m : Nat) (pks : List Nat) (now : Nat) : DeleteResult × DB :=
  let nb := (qsLiveMembers db m pks).length
  ((nb, [(m, nb)]),
   db.map (fun r =>
     if r.model = m ∧ r.pk ∈ pks ∧ is_deleted r = false then { r with deleted := now }
     else r))

/-- SafeDeleteQueryset.delete (queryset.py lines 31-73) on the queryset of
model class m restricted to the primary keys pks, under the default INVISIBLE
visibility. HARD_DELETE_NOCASCADE iterates single-record deletes over the
visible rows; SOFT_DELETE_CASCADE materializes the visible rows, bulk
soft-deletes them, bulk soft-deletes each safedelete group of
get_objects_to_delete (computed against the already-updated database, as the
collector re-queries the store), and finally runs perform_updates. -/
def qsDelete (sch : Schema) (db : DB) (m : Nat) (pks : List Nat)
    (force : Option Policy) (now : Nat) : Except PyErr (DeleteResult × DB) :=
  match force.getD (getPolicy sch m) with
  | .noDelete => .ok ((0, []), db)
  | .hardDelete => .ok (djangoDelete sch db ((qsLiveMembers db m pks).map recId))
  | .hardDeleteNoCascade =>
      let step := fun (acc : Except PyErr (List DeleteResult × DB)) (obj : Record) =>
        match acc with
        | .error e => .error e
        | .ok (rs, d) =>
            match modelDelete sch d obj force now with
            | .error e => .error e
            | .ok (r, d2) => .ok (rs ++ [r], d2)
      match (qsLiveMembers db m pks).foldl step (.ok ([], db)) with
      | .error e => .error e
      | .ok (rs, d) => .ok (concatenate_delete_returns rs, d)
  | .softDelete =>
      let (r, d) := qsSoftDelete db m pks now
      .ok (concatenate_delete_returns [r], d)
  | .softDeleteCascade =>
      let qo := qsLiveMembers db m pks
      if qo.isEmpty then .ok ((0, []), db)
      else
        let (r1, db1) := qsSoftDelete db m pks now
        let groups := get_objects_to_delete sch db1 qo false
        let (rs, db2) := groups.foldl
          (fun acc g =>
            if is_safedelete_cls sch g.1 then
              let (r, d) := qsSoftDelete acc.2 g.1 (g.2.map (·.pk)) now
              (acc.1 ++ [r], d)
            else acc)
          (([] : List DeleteResult), db1)
        let (db3, _) := perform_updates sch db2 qo
        .ok (concatenate_delete_returns (r1 :: rs), db3)

/-- In-memory state of one model instance as seen by SafeDeleteModel.save:
the primary key (none while the instance was never persisted, mirroring a
falsy self.pk) and the deleted column. -/
structure Inst where
  pk : Option Nat
  deleted : Nat
deriving DecidableEq, Repr

/-- Observable effects of SafeDeleteModel.save, in order of occurrence:
the database persist (super().save) and the post_undelete signal dispatch. -/
inductive SaveEvent where
  | persist
  | postUndeleteSignal
deriving DecidableEq, Repr

/-- utils.is_deleted applied to an in-memory instance. -/
def inst_is_deleted (i : Inst) : Bool :=
  decide (i.deleted ≠ DEFAULT_DELETED)

/-- SafeDeleteModel.save (models.py lines 63-90): unless keep_deleted is set,
remember whether the instance was soft-deleted AND already had a primary key
(was_undeleted) and reset the deleted column to the sentinel; persist via
super().save (which assigns newPk when the instance had none); finally, when
was_undeleted, send the post_undelete signal. The returned event list records
the persist and the signal in their execution order. -/
def save (i : Inst) (keep_deleted : Bool) (newPk : Nat) : Inst × List SaveEvent :=
  let was_undeleted := !keep_deleted && inst_is_deleted i && i.pk.isSome
  let i1 := if keep_deleted then i else { i with deleted := DEFAULT_DELETED }
  let i2 := { i1 with pk := some (i1.pk.getD newPk) }
  (i2, [SaveEvent.persist] ++ if was_undeleted then [SaveEvent.postUndeleteSignal] else [])

/-- Failure modes of SafeDeleteModel.undelete: the precondition assertion
(assert is_deleted(self), models.py line 105; the spec's PreconditionError),
and the run-time unpack failure of models.py line 110 on the
SOFT_DELETE_CASCADE path (see PyErr). -/
inductive UndeleteErr where
  | precondition
  | unpackOrIter
deriving DecidableEq, Repr

/-- SafeDeleteModel.undelete (models.py lines 92-122): inside one transaction,
assert that the record is soft-deleted before any side effect, then save it
with keep_deleted=False (resetting deleted to the sentinel); with effective
policy SOFT_DELETE_CASCADE the code then reaches models.py line 110, whose
two-name unpacking of the OrderedDict returned by utils.get_objects_to_delete
raises, rolling the transaction (including the save) back. An error result
therefore leaves the database unchanged. -/
def undelete (sch : Schema) (db : DB) (self : Record) (force : Option Policy) :
    Except UndeleteErr DB :=
  let current := force.getD (getPolicy sch self.model)
  if is_deleted self = false then .error .precondition
  else if current = .softDeleteCascade then .error .unpackOrIter
  else .ok (db.map (fun r =>
    if recId r = recId self then { r with deleted := DEFAULT_DELETED } else r))

/-- Existence check field.related_model.deleted_objects.filter(pk=v).exists()
from SafeDeleteQueryset.create. Modelled from the spec: managers.py is not
under src/; the deleted_objects manager has ONLY_VISIBLE visibility, so it
sees exactly the rows whose deleted column differs from the sentinel. -/
def softDeletedExists (db : DB) (t v : Nat) : Bool :=
  db.any (fun r => decide (r.model = t ∧ r.pk = v ∧ is_deleted r = true))

/-- SafeDeleteQueryset.create (queryset.py lines 108-127) for a model with a
single foreign-key field whose id value is passed in kwargs. When the
settings flag SAFE_DELETE_ALLOW_FK_TO_SOFT_DELETED_OBJECTS is True (its
default), no check is made; when it is False and the referenced row is
soft-deleted, SafeDeleteIntegrityError is raised, naming the related model
and the offending key, before the row is inserted. Otherwise the new row is
inserted with a sentinel deleted column. -/
def createRec (allow_fk_to_soft_deleted : Bool) (sch : Schema) (db : DB)
    (m : Nat) (fkVal : Option Nat) (newPk : Nat) : Except (Nat × Nat) DB :=
  if allow_fk_to_soft_deleted then
    .ok (db ++ [{ model := m, pk := newPk, deleted := DEFAULT_DELETED, fk := fkVal }])
  else
    match sch.fkOf m, fkVal with
    | some (t, _), some v =>
        if softDeletedExists db t v then .error (t, v)
        else .ok (db ++ [{ model := m, pk := newPk, deleted := DEFAULT_DELETED, fk := fkVal }])
    | _, _ => .ok (db ++ [{ model := m, pk := newPk, deleted := DEFAULT_DELETED, fk := fkVal }])

/-- Visibility modes from config.py (modelled from the spec; config.py is not
under src/): DELETED_INVISIBLE, DELETED_VISIBLE_BY_PK, DELETED_VISIBLE_BY_FIELD,
DELETED_VISIBLE and DELETED_ONLY_VISIBLE. -/
inductive Visibility where
  | invisible
  | visibleByPk
  | visibleByField
  | visible
  | onlyVisible
deriving DecidableEq, Repr

/-- Condition injected into the underlying query by
SafeDeleteQueryset._filter_visibility: Q(deleted=DEFAULT_DELETED) or its
negation. -/
inductive Cond where
  | deletedEqSentinel
  | deletedNeSentinel
deriving DecidableEq, Repr

/-- Per-instance state of a SafeDeleteQueryset: its visibility mode
(_safedelete_visibility, set by the manager), the designated trigger field of
DELETED_VISIBLE_BY_FIELD (_safedelete_visibility_field), the override
(_safedelete_force_visibility, absent by default), whether the visibility
condition was already injected (_safedelete_filter_applied, class default
False), and the conditions accumulated on the underlying query. -/
structure SDQuerySet where
  visibility : Visibility
  visibilityField : Nat
  forceVisibility : Option Visibility
  filterApplied : Bool
  conds : List Cond
deriving DecidableEq, Repr

/-- SafeDeleteQueryset._filter_visibility (queryset.py lines 153-175): resolve
the effective visibility (force override first), and if the filter was not
applied yet and the mode is one of DELETED_INVISIBLE,
DELETED_VISIBLE_BY_FIELD, DELETED_ONLY_VISIBLE, add the matching condition to
the query in place and mark the filter applied; otherwise do nothing. -/
def _filter_visibility (qs : SDQuerySet) : SDQuerySet :=
  if qs.filterApplied = false ∧
      (qs.forceVisibility.getD qs.visibility = Visibility.invisible ∨
       qs.forceVisibility.getD qs.visibility = Visibility.visibleByField ∨
       qs.forceVisibility.getD qs.visibility = Visibility.onlyVisible) then
    { qs with
      conds := qs.conds ++
        [if qs.forceVisibility.getD qs.visibility = Visibility.invisible ∨
            qs.forceVisibility.getD qs.visibility = Visibility.visibleByField then
           Cond.deletedEqSentinel
         else Cond.deletedNeSentinel],
      filterApplied := true }
  else qs

/-- SafeDeleteQueryset._check_field_filter (queryset.py lines 133-143), with
kwargs abstracted to the list of field names they mention: an untriggered
DELETED_VISIBLE_BY_FIELD queryset whose designated field is named by a
filter/get becomes force-visible (DELETED_VISIBLE) for the rest of its
lifetime. -/
def _check_field_filter (qs : SDQuerySet) (kwargFields : List Nat) : SDQuerySet :=
  if qs.visibility = .visibleByField ∧ qs.visibilityField ∈ kwargFields then
    { qs with forceVisibility := some .visible }
  else qs

/-- Methods intercepted by SafeDeleteQueryset.__getattribute__ (the closed
evaluation list of queryset.py lines 224-227) plus two representative
non-evaluating query-building methods (filter and all). -/
inductive Meth where
  | fetchAll
  | countM
  | existsM
  | aggregateM
  | updateM
  | updatePrivM
  | deleteM
  | undeleteM
  | iteratorM
  | firstM
  | lastM
  | latestM
  | earliestM
  | filterBuildM
  | allBuildM
deriving DecidableEq, Repr

/-- The evaluation_methods tuple of SafeDeleteQueryset.__getattribute__:
'_fetch_all', 'count', 'exists', 'aggregate', 'update', '_update', 'delete',
'undelete', 'iterator', 'first', 'last', 'latest', 'earliest'. -/
def evaluation_methods : List Meth :=
  [.fetchAll, .countM, .existsM, .aggregateM, .updateM, .updatePrivM, .deleteM,
   .undeleteM, .iteratorM, .firstM, .lastM, .latestM, .earliestM]

/-- SafeDeleteQueryset.__getattribute__ (queryset.py lines 219-233), reduced
to its effect on the queryset state: accessing one of the evaluation methods
returns a wrapper that runs _filter_visibility before delegating, so the
state just before the underlying operation executes is _filter_visibility of
the current state; any other attribute access leaves the state alone. -/
def getattribute_call (qs : SDQuerySet) (name : Meth) : SDQuerySet :=
  if name ∈ evaluation_methods then _filter_visibility qs else qs

/-- SafeDeleteQueryset._clone (queryset.py lines 235-246): Django's
super()._clone() copies the underlying query (hence the accumulated
conditions) but produces an instance with the class defaults for the
safedelete attributes; the override then copies _safedelete_visibility,
_safedelete_visibility_field, _safedelete_filter_applied and, when present,
_safedelete_force_visibility from the parent. -/
def qsClone (qs : SDQuerySet) : SDQuerySet :=
  let base : SDQuerySet :=
    { visibility := .invisible, visibilityField := 0, forceVisibility := none,
      filterApplied := false, conds := qs.conds }
  { base with
    visibility := qs.visibility,
    visibilityField := qs.visibilityField,
    filterApplied := qs.filterApplied,
    forceVisibility := qs.forceVisibility }

/-- Find a row by model class and primary key. -/
def lookupRec (db : DB) (m pk : Nat) : Option Record :=
  db.find? (fun r => decide (r.model = m ∧ r.pk = pk))

/-- Emptiness test of claim C3, following the spec's words rather than the
source: the Collector run with includeAlreadyDeleted=true restricted to the
record, taking the cascade set united with the update groups. The source's
can_hard_delete instead calls get_objects_to_delete with its default
exclusion of already-deleted instances and never consults the update
groups. -/
def c3_spec_plan (sch : Schema) (db : DB) (r : Record) :
    List (Nat × List Record) × List (Nat × List Record) :=
  (get_objects_to_delete sch db [r] true, fieldUpdates sch db [r])

/-- Claim C3 as stated: for a HARD_DELETE_NOCASCADE record, delete equals the
forced HARD_DELETE recursion when the spec's plan is empty and the forced
SOFT_DELETE recursion otherwise. -/
def c3_claim_holds (sch : Schema) (db : DB) (r : Record) (now : Nat) : Prop :=
  modelDelete sch db r none now =
    (if c3_spec_plan sch db r = ([], []) then modelDelete sch db r (some .hardDelete) now
     else modelDelete sch db r (some .softDelete) now)

/-- Claim C4 as stated: every bulk update executed by perform_updates runs
with an affected-instance list from which already-soft-deleted instances were
excluded beforehand (so no listed pk belongs to a soft-deleted row of the
group's model), and groups whose list is left empty are dropped (no executed
operation has an empty list). -/
def c4_claim_exclusion (sch : Schema) (db : DB) (objs : List Record) : Prop :=
  ∀ g ∈ (perform_updates sch db objs).2,
    g.2 ≠ [] ∧ ∀ pk ∈ g.2, ¬ ∃ r ∈ db, r.model = g.1 ∧ r.pk = pk ∧ is_deleted r = true

/-- Schema of claim C1's scenario: model 0 is the class of root A with policy
SOFT_DELETE_CASCADE; model 1 (class of B1 and B2) carries
SOFT_DELETE_CASCADE and cascade-FKs to model 0; model 2 (class of C) carries
a policy and SET_NULL-FKs to model 0. -/
def schC1 : Schema where
  policyOf := fun m =>
    if m = 0 then some .softDeleteCascade
    else if m = 1 then some .softDeleteCascade
    else if m = 2 then some .softDeleteCascade
    else none
  fkOf := fun m =>
    if m = 1 then some (0, .cascade)
    else if m = 2 then some (0, .setNull)
    else none

/-- Root record A of claim C1's scenario, initially live. -/
def c1A : Record := { model := 0, pk := 1, deleted := 0, fk := none }

/-- Database of claim C1's scenario: A live, B1 and B2 live with cascade FKs
to A, C live with a SET_NULL FK to A. -/
def dbC1 : DB :=
  [c1A,
   { model := 1, pk := 1, deleted := 0, fk := some 1 },
   { model := 1, pk := 2, deleted := 0, fk := some 1 },
   { model := 2, pk := 1, deleted := 0, fk := some 1 }]

/-- Schema of claim C2's scenario: model 0 and model 1 both carry
SOFT_DELETE_CASCADE; model 1 cascade-FKs to model 0. -/
def schC2 : Schema where
  policyOf := fun m =>
    if m = 0 then some .softDeleteCascade
    else if m = 1 then some .softDeleteCascade
    else none
  fkOf := fun m => if m = 1 then some (0, .cascade) else none

/-- Root record of claim C2's scenario. -/
def c2A : Record := { model := 0, pk := 1, deleted := 0, fk := none }

/-- Database of claim C2's scenario: the root and one live cascade
dependent. -/
def dbC2 : DB := [c2A, { model := 1, pk := 1, deleted := 0, fk := some 1 }]

/-- Schema of claim C3's counterexample: model 0 carries
HARD_DELETE_NOCASCADE; model 1 carries SOFT_DELETE and cascade-FKs to
model 0. -/
def schC3 : Schema where
  policyOf := fun m =>
    if m = 0 then some .hardDeleteNoCascade
    else if m = 1 then some .softDelete
    else none
  fkOf := fun m => if m = 1 then some (0, .cascade) else none

/-- Root record of claim C3's counterexample, live. -/
def c3r : Record := { model := 0, pk := 1, deleted := 0, fk := none }

/-- Database of claim C3's counterexample: the live root plus one
already-soft-deleted record whose cascade FK references it. The spec's plan
(includeAlreadyDeleted=true) contains that referencing row, so claim C3
predicts a SOFT_DELETE fallback; the source's can_hard_delete excludes it,
so the code hard-deletes, physically removing both rows. -/
def dbC3 : DB :=
  [c3r, { model := 1, pk := 1, deleted := 3, fk := some 1 }]

/-- Schema of the witness for amended claim C3 (identical shape to schC3). -/
def schC3w : Schema where
  policyOf := fun m =>
    if m = 0 then some .hardDeleteNoCascade
    else if m = 1 then some .softDelete
    else none
  fkOf := fun m => if m = 1 then some (0, .cascade) else none

/-- Root record of the witness for amended claim C3. -/
def c3wr : Record := { model := 0, pk := 1, deleted := 0, fk := none }

/-- Database of the witness for amended claim C3: the root has one live
cascade-referencing row, so can_hard_delete is false and the code falls back
to a soft delete of the root alone. -/
def dbC3w : DB :=
  [c3wr, { model := 1, pk := 1, deleted := 0, fk := some 1 }]

/-- Schema of claim C4's counterexample: model 0 carries
SOFT_DELETE_CASCADE; model 1 carries SOFT_DELETE_CASCADE and SET_NULL-FKs to
model 0. -/
def schC4 : Schema where
  policyOf := fun m =>
    if m = 0 then some .softDeleteCascade
    else if m = 1 then some .softDeleteCascade
    else none
  fkOf := fun m => if m = 1 then some (0, .setNull) else none

/-- Root record of claim C4's counterexample, already marked soft-deleted (as
it is when perform_updates runs at the end of a cascade delete). -/
def c4root : Record := { model := 0, pk := 1, deleted := 5, fk := none }

/-- Database of claim C4's counterexample: the soft-deleted root and one
already-soft-deleted row whose SET_NULL FK references it. perform_updates
still executes the bulk update with that row's pk in the list. -/
def dbC4 : DB :=
  [c4root, { model := 1, pk := 1, deleted := 3, fk := some 1 }]

/-- Concrete queryset for the C5 witness: default INVISIBLE visibility, no
override, filter not yet applied, empty query. -/
def qsC5 : SDQuerySet :=
  { visibility := .invisible, visibilityField := 0, forceVisibility := none,
    filterApplied := false, conds := [] }

/-- Concrete queryset for the C7 witness. -/
def qsC7 : SDQuerySet :=
  { visibility := .onlyVisible, visibilityField := 3, forceVisibility := none,
    filterApplied := false, conds := [] }

/-- Concrete instance for the C6 witness: soft-deleted and already
persisted. -/
def instC6 : Inst := { pk := some 7, deleted := 3 }

/-- Concrete instance for the C10 witness: marked soft-deleted in memory but
never persisted (no primary key). -/
def instC10 : Inst := { pk := none, deleted := 3 }

/-- Schema for the C8 witness. -/
def schC8 : Schema where
  policyOf := fun m => if m = 0 then some .softDelete else none
  fkOf := fun _ => none

/-- Live (not soft-deleted) record for the C8 witness. -/
def c8live : Record := { model := 0, pk := 1, deleted := 0, fk := none }

/-- Database for the C8 witness. -/
def dbC8 : DB := [c8live]

/-- Schema for the C9 witness: model 1 has a foreign key to model 0. -/
def schC9 : Schema where
  policyOf := fun m => if m ≤ 1 then some .softDelete else none
  fkOf := fun m => if m = 1 then some (0, .cascade) else none

/-- Database for the C9 witness: the referenced model-0 row with pk 5 is
soft-deleted. -/
def dbC9 : DB := [{ model := 0, pk := 5, deleted := 9, fk := none }]

/-! ## Helper lemmas -/

/-- Once the visibility filter was applied, _filter_visibility is the
identity. -/
theorem filter_visibility_of_applied (qs : SDQuerySet) (h : qs.filterApplied = true) :
    _filter_visibility qs = qs := by
  unfold _filter_visibility
  simp [h]

/-- Applying _filter_visibility twice equals applying it once. -/
theorem filter_visibility_idem (qs : SDQuerySet) :
    _filter_visibility (_filter_visibility qs) = _filter_visibility qs := by
  by_cases h : qs.filterApplied = false ∧
      (qs.forceVisibility.getD qs.visibility = Visibility.invisible ∨
       qs.forceVisibility.getD qs.visibility = Visibility.visibleByField ∨
       qs.forceVisibility.getD qs.visibility = Visibility.onlyVisible)
  · have h2 : (_filter_visibility qs).filterApplied = true := by
      unfold _filter_visibility
      simp [h]
    exact filter_visibility_of_applied _ h2
  · have h1 : _filter_visibility qs = qs := by
      unfold _filter_visibility
      simp [h]
    rw [h1]
    exact h1

/-! ## Claim theorems -/

/-- Claim C1 (code_bug). The claim states that for root A with policy
SOFT_DELETE_CASCADE, cascade dependents B1 and B2 and SET_NULL dependent C,
delete(A) soft-deletes A, B1, B2, nullifies C's foreign key, leaves C alive
and returns a total of 3. In the source, SafeDeleteModel.delete reaches
models.py line 175, where the single OrderedDict returned by
utils.get_objects_to_delete is unpacked into the two names fast_deletes and
objects_to_delete; the call therefore raises and the transaction rolls back.
The second conjunct shows the claimed behaviour is the intent: the queryset
bulk-delete path of the very same scenario (queryset.py, which uses
get_objects_to_delete correctly) produces exactly the claimed final state
and the claimed total of 3. -/
theorem c1_cascade_delete_crashes :
    modelDelete schC1 dbC1 c1A none 5 = .error .unpackOrIter ∧
    qsDelete schC1 dbC1 0 [1] none 5 =
      .ok ((3, [(0, 1), (1, 2)]),
        [{ model := 0, pk := 1, deleted := 5, fk := none },
         { model := 1, pk := 1, deleted := 5, fk := some 1 },
         { model := 1, pk := 2, deleted := 5, fk := some 1 },
         { model := 2, pk := 1, deleted := 0, fk := none }]) := by
  exact ⟨rfl, by decide⟩

/-- Claim C2 (code_bug). The claim states that bulk delete and iterated
single-record delete agree for SOFT_DELETE and SOFT_DELETE_CASCADE. For
SOFT_DELETE_CASCADE they cannot: on a one-element set whose record has one
live cascade dependent, the bulk path succeeds with total 2 and both rows
soft-deleted, while the single-record path raises at models.py line 175
(unpacking the OrderedDict returned by utils.get_objects_to_delete into two
names) and rolls back. -/
theorem c2_bulk_vs_iterative_divergence :
    qsDelete schC2 dbC2 0 [1] none 5 =
      .ok ((2, [(0, 1), (1, 1)]),
        [{ model := 0, pk := 1, deleted := 5, fk := none },
         { model := 1, pk := 1, deleted := 5, fk := some 1 }]) ∧
    modelDelete schC2 dbC2 c2A none 5 = .error .unpackOrIter := by
  exact ⟨by decide, rfl⟩

/-- Claim C5 (confirmed). For any queryset on which the visibility filter was
not applied yet and any method of the closed evaluation list, the state just
before the operation executes carries the injected condition dictated by the
visibility mode: INVISIBLE and untriggered VISIBLE_BY_FIELD append
deleted == sentinel, ONLY_VISIBLE appends deleted != sentinel, and VISIBLE,
VISIBLE_BY_PK and triggered VISIBLE_BY_FIELD (force visibility VISIBLE, as
set by _check_field_filter) append nothing. -/
theorem c5_visibility_injection (qs : SDQuerySet) (op : Meth)
    (hop : op ∈ evaluation_methods) (happ : qs.filterApplied = false) :
    ((qs.forceVisibility = none ∧
        (qs.visibility = Visibility.invisible ∨ qs.visibility = Visibility.visibleByField)) →
      (getattribute_call qs op).conds = qs.conds ++ [Cond.deletedEqSentinel]) ∧
    ((qs.forceVisibility = none ∧ qs.visibility = Visibility.onlyVisible) →
      (getattribute_call qs op).conds = qs.conds ++ [Cond.deletedNeSentinel]) ∧
    ((qs.forceVisibility = none ∧
        (qs.visibility = Visibility.visible ∨ qs.visibility = Visibility.visibleByPk)) →
      (getattribute_call qs op).conds = qs.conds) ∧
    (qs.forceVisibility = some Visibility.visible →
      (getattribute_call qs op).conds = qs.conds) := by
  have hga : getattribute_call qs op = _filter_visibility qs := by
    simp [getattribute_call, hop]
  refine ⟨?_, ?_, ?_, ?_⟩
  · rintro ⟨hf, hv | hv⟩ <;> simp [hga, _filter_visibility, hf, hv, happ]
  · rintro ⟨hf, hv⟩
    simp [hga, _filter_visibility, hf, hv, happ]
  · rintro ⟨hf, hv | hv⟩ <;> simp [hga, _filter_visibility, hf, hv, happ]
  · intro hf
    simp [hga, _filter_visibility, hf, happ]

/-- Witness for C5: the default INVISIBLE queryset with a count evaluation. -/
theorem c5_visibility_injection_witness :
    (Meth.countM ∈ evaluation_methods ∧ qsC5.filterApplied = false) ∧
    (((qsC5.forceVisibility = none ∧
        (qsC5.visibility = Visibility.invisible ∨ qsC5.visibility = Visibility.visibleByField)) →
      (getattribute_call qsC5 Meth.countM).conds = qsC5.conds ++ [Cond.deletedEqSentinel]) ∧
    ((qsC5.forceVisibility = none ∧ qsC5.visibility = Visibility.onlyVisible) →
      (getattribute_call qsC5 Meth.countM).conds = qsC5.conds ++ [Cond.deletedNeSentinel]) ∧
    ((qsC5.forceVisibility = none ∧
        (qsC5.visibility = Visibility.visible ∨ qsC5.visibility = Visibility.visibleByPk)) →
      (getattribute_call qsC5 Meth.countM).conds = qsC5.conds) ∧
    (qsC5.forceVisibility = some Visibility.visible →
      (getattribute_call qsC5 Meth.countM).conds = qsC5.conds)) :=
  ⟨⟨by decide, by decide⟩, c5_visibility_injection qsC5 Meth.countM (by decide) (by decide)⟩

/-- Claim C6 (confirmed). Saving a soft-deleted, already-persisted instance
without keep_deleted resets the deleted column to the sentinel and fires the
post-undelete signal exactly once, after the persist; saving it with
keep_deleted leaves the deleted column untouched and fires no signal. -/
theorem c6_save_reactivation (i : Inst) (newPk : Nat)
    (hdel : inst_is_deleted i = true) (hpk : i.pk.isSome = true) :
    (save i false newPk).2 = [SaveEvent.persist, SaveEvent.postUndeleteSignal] ∧
    (save i false newPk).1.deleted = DEFAULT_DELETED ∧
    (save i true newPk).2 = [SaveEvent.persist] ∧
    (save i true newPk).1.deleted = i.deleted := by
  unfold save
  simp [hdel, hpk]

/-- Witness for C6: a soft-deleted instance with primary key 7. -/
theorem c6_save_reactivation_witness :
    (inst_is_deleted instC6 = true ∧ instC6.pk.isSome = true) ∧
    ((save instC6 false 11).2 = [SaveEvent.persist, SaveEvent.postUndeleteSignal] ∧
     (save instC6 false 11).1.deleted = DEFAULT_DELETED ∧
     (save instC6 true 11).2 = [SaveEvent.persist] ∧
     (save instC6 true 11).1.deleted = instC6.deleted) :=
  ⟨⟨by decide, by decide⟩, c6_save_reactivation instC6 11 (by decide) (by decide)⟩

/-- Claim C7 (confirmed). The visibility condition is injected at most once
per queryset instance: triggering a second evaluation method after a first
one changes nothing, and a clone carries forward the parent's visibility
mode, trigger field, applied flag and force override. -/
theorem c7_inject_once_and_clone (qs : SDQuerySet) (op1 op2 : Meth)
    (h1 : op1 ∈ evaluation_methods) (h2 : op2 ∈ evaluation_methods) :
    getattribute_call (getattribute_call qs op1) op2 = getattribute_call qs op1 ∧
    (qsClone qs).visibility = qs.visibility ∧
    (qsClone qs).visibilityField = qs.visibilityField ∧
    (qsClone qs).filterApplied = qs.filterApplied ∧
    (qsClone qs).forceVisibility = qs.forceVisibility := by
  refine ⟨?_, rfl, rfl, rfl, rfl⟩
  simp [getattribute_call, h1, h2, filter_visibility_idem]

/-- Witness for C7: an ONLY_VISIBLE queryset evaluated by count then
delete. -/
theorem c7_inject_once_and_clone_witness :
    (Meth.countM ∈ evaluation_methods ∧ Meth.deleteM ∈ evaluation_methods) ∧
    (getattribute_call (getattribute_call qsC7 Meth.countM) Meth.deleteM =
        getattribute_call qsC7 Meth.countM ∧
      (qsClone qsC7).visibility = qsC7.visibility ∧
      (qsClone qsC7).visibilityField = qsC7.visibilityField ∧
      (qsClone qsC7).filterApplied = qsC7.filterApplied ∧
      (qsClone qsC7).forceVisibility = qsC7.forceVisibility) :=
  ⟨⟨by decide, by decide⟩,
   c7_inject_once_and_clone qsC7 Meth.countM Meth.deleteM (by decide) (by decide)⟩

/-- Claim C8 (confirmed). Undeleting a record that is not soft-deleted fails
on the precondition assertion (models.py line 105, the spec's
PreconditionError) before any side effect: the transactional call raises and
returns no updated database. -/
theorem c8_undelete_precondition (sch : Schema) (db : DB) (self : Record)
    (force : Option Policy) (h : is_deleted self = false) :
    undelete sch db self force = .error .precondition := by
  unfold undelete
  simp [h]

/-- Witness for C8: undeleting a live record. -/
theorem c8_undelete_precondition_witness :
    is_deleted c8live = false ∧
    undelete schC8 dbC8 c8live none = .error .precondition :=
  ⟨by decide, c8_undelete_precondition schC8 dbC8 c8live none (by decide)⟩

/-- Claim C9 (confirmed). Creating a record whose foreign-key id references a
soft-deleted row fails with SafeDeleteIntegrityError naming the related model
and key when the guard is enabled (settings flag set to disallow), inserting
nothing; with the guard disabled (the default) the creation succeeds. -/
theorem c9_create_fk_guard (sch : Schema) (db : DB) (m t v newPk : Nat) (od : OnDelete)
    (hfk : sch.fkOf m = some (t, od)) (hsd : softDeletedExists db t v = true) :
    createRec false sch db m (some v) newPk = .error (t, v) ∧
    createRec true sch db m (some v) newPk =
      .ok (db ++ [{ model := m, pk := newPk, deleted := DEFAULT_DELETED, fk := some v }]) := by
  constructor
  · unfold createRec
    simp [hfk, hsd]
  · rfl

/-- Witness for C9: model 1 references the soft-deleted model-0 row with
pk 5. -/
theorem c9_create_fk_guard_witness :
    (schC9.fkOf 1 = some (0, OnDelete.cascade) ∧ softDeletedExists dbC9 0 5 = true) ∧
    (createRec false schC9 dbC9 1 (some 5) 2 = .error (0, 5) ∧
     createRec true schC9 dbC9 1 (some 5) 2 =
       .ok (dbC9 ++ [{ model := 1, pk := 2, deleted := DEFAULT_DELETED, fk := some 5 }])) :=
  ⟨⟨by decide, by decide⟩, c9_create_fk_guard schC9 dbC9 1 0 5 2 OnDelete.cascade (by decide) (by decide)⟩

/-- Claim C10 (confirmed). Saving an instance that is marked soft-deleted in
memory but was never persisted (no primary key) without keep_deleted resets
the deleted column to the sentinel and persists it, but fires no
post-undelete signal: the signal requires both the soft-deleted state and an
existing primary key. -/
theorem c10_save_never_persisted (i : Inst) (newPk : Nat)
    (hdel : inst_is_deleted i = true) (hpk : i.pk = none) :
    (save i false newPk).1.deleted = DEFAULT_DELETED ∧
    (save i false newPk).1.pk = some newPk ∧
    (save i false newPk).2 = [SaveEvent.persist] := by
  unfold save
  simp [hdel, hpk]

/-- Witness for C10: a soft-deleted, never-persisted instance. -/
theorem c10_save_never_persisted_witness :
    (inst_is_deleted instC10 = true ∧ instC10.pk = none) ∧
    ((save instC10 false 4).1.deleted = DEFAULT_DELETED ∧
     (save instC10 false 4).1.pk = some 4 ∧
     (save instC10 false 4).2 = [SaveEvent.persist]) :=
  ⟨⟨by decide, by decide⟩, c10_save_never_persisted instC10 4 (by decide) (by decide)⟩

/-- Roots are contained in the cascade closure. -/
theorem mem_cascadeIds_of_mem_roots (sch : Schema) (db : DB) (roots : List (Nat × Nat))
    (x : Nat × Nat) (hx : x ∈ roots) : x ∈ cascadeIds sch db roots := by
  unfold cascadeIds
  generalize List.range db.length = l
  induction l generalizing roots with
  | nil => simpa using hx
  | cons a as ih =>
      simp only [List.foldl_cons]
      apply ih
      unfold cascadeStep
      exact List.mem_append_left _ hx

/-- nullifyAgainst only touches the foreign-key field. -/
theorem nullifyAgainst_model (sch : Schema) (t : List (Nat × Nat)) (r : Record) :
    (nullifyAgainst sch t r).model = r.model := by
  unfold nullifyAgainst
  split <;> rfl

/-- nullifyAgainst only touches the foreign-key field. -/
theorem nullifyAgainst_pk (sch : Schema) (t : List (Nat × Nat)) (r : Record) :
    (nullifyAgainst sch t r).pk = r.pk := by
  unfold nullifyAgainst
  split <;> rfl

/-- After Django's physical cascading delete of a set of roots, a root's row
can no longer be found. -/
theorem lookupRec_djangoDeleteDb_root (sch : Schema) (db : DB) (roots : List (Nat × Nat))
    (m pk : Nat) (hroot : (m, pk) ∈ roots) :
    lookupRec (djangoDeleteDb sch db roots) m pk = none := by
  unfold lookupRec djangoDeleteDb
  rw [List.find?_eq_none]
  intro y hy
  rcases List.mem_map.mp hy with ⟨x, hxmem, rfl⟩
  have hxf := (List.mem_filter.mp hxmem).2
  intro hpy
  have h1 : (nullifyAgainst sch (cascadeIds sch db roots) x).model = m ∧
      (nullifyAgainst sch (cascadeIds sch db roots) x).pk = pk := of_decide_eq_true hpy
  have hx : recId x = (m, pk) := by
    unfold recId
    rw [← nullifyAgainst_model sch (cascadeIds sch db roots) x,
        ← nullifyAgainst_pk sch (cascadeIds sch db roots) x, h1.1, h1.2]
  have hin : recId x ∈ cascadeIds sch db roots :=
    hx ▸ mem_cascadeIds_of_mem_roots sch db roots (m, pk) hroot
  simp [hin] at hxf

/-- After soft-deleting one record in place, looking it up finds a row whose
deleted column is the new timestamp. -/
theorem lookupRec_softDeleteOne (db : DB) (r : Record) (now : Nat) (hmem : r ∈ db) :
    ∃ r2, lookupRec (softDeleteOne db (recId r) now) r.model r.pk = some r2 ∧
      r2.deleted = now := by
  induction db with
  | nil => cases hmem
  | cons x xs ih =>
      unfold lookupRec softDeleteOne
      simp only [List.map_cons]
      by_cases hx : recId x = recId r
      · have hm : x.model = r.model := congrArg Prod.fst hx
        have hp : x.pk = r.pk := congrArg Prod.snd hx
        refine ⟨{ x with deleted := now }, ?_, rfl⟩
        rw [if_pos hx, List.find?_cons_of_pos]
        exact decide_eq_true ⟨hm, hp⟩
      · have hpx : ¬ (x.model = r.model ∧ x.pk = r.pk) := by
          rintro ⟨h1, h2⟩
          exact hx (by unfold recId; rw [h1, h2])
        have hmem2 : r ∈ xs := by
          cases hmem with
          | head => exact absurd rfl hx
          | tail _ htl => exact htl
        rw [if_neg hx, List.find?_cons_of_neg]
        · exact ih hmem2
        · simp [hpx]

/-- Counterexample to claim C3 as stated. The root carries
HARD_DELETE_NOCASCADE and has one already-soft-deleted cascade-referencing
row: the spec's plan (Collector with includeAlreadyDeleted=true, cascade set
united with update groups) is nonempty, so the claim predicts the
SOFT_DELETE fallback (root soft-deleted, row retained); the code's
can_hard_delete, which excludes already-deleted instances and ignores update
groups, sees an empty plan and recurses with HARD_DELETE, physically
removing the root and its referencing row. -/
theorem c3_counterexample : ¬ c3_claim_holds schC3 dbC3 c3r 5 := by
  unfold c3_claim_holds
  decide

/-- Claim C3 as amended (corrected). For a HARD_DELETE_NOCASCADE record,
delete runs utils.can_hard_delete — get_objects_to_delete restricted to the
record, with already-soft-deleted referencing rows excluded and update
groups not consulted. When that cascade dictionary is empty the record is
physically removed (forced HARD_DELETE via Django's native delete); when it
is nonempty the record is soft-deleted exactly as under SOFT_DELETE,
returning (1, dict(label=1)). -/
theorem c3_nocascade_fallback (sch : Schema) (db : DB) (r : Record) (now : Nat)
    (hp : getPolicy sch r.model = Policy.hardDeleteNoCascade) (hmem : r ∈ db) :
    ∃ res db2, modelDelete sch db r none now = .ok (res, db2) ∧
      (can_hard_delete sch db r = true → lookupRec db2 r.model r.pk = none) ∧
      (can_hard_delete sch db r = false →
        res = (1, [(r.model, 1)]) ∧
        ∃ r2, lookupRec db2 r.model r.pk = some r2 ∧ r2.deleted = now) := by
  unfold modelDelete
  rw [show (none : Option Policy).getD (getPolicy sch r.model) = getPolicy sch r.model from rfl,
      hp]
  cases hc : can_hard_delete sch db r with
  | true =>
      refine ⟨(djangoDelete sch db [recId r]).1, (djangoDelete sch db [recId r]).2,
        ?_, ?_, ?_⟩
      · simp [modelDeleteEff, hc]
      · intro _
        show lookupRec (djangoDeleteDb sch db [recId r]) r.model r.pk = none
        exact lookupRec_djangoDeleteDb_root sch db [recId r] r.model r.pk
          (by simp [recId])
      · intro hcf
        exact Bool.noConfusion hcf
  | false =>
      refine ⟨(1, [(r.model, 1)]), softDeleteOne db (recId r) now, ?_, ?_, ?_⟩
      · simp [modelDeleteEff, hc]
      · intro hct
        exact Bool.noConfusion hct
      · intro _
        exact ⟨rfl, lookupRec_softDeleteOne db r now hmem⟩

/-- Witness for amended claim C3: a live root with one live
cascade-referencing row falls back to soft delete. -/
theorem c3_nocascade_fallback_witness :
    (getPolicy schC3w c3wr.model = Policy.hardDeleteNoCascade ∧ c3wr ∈ dbC3w) ∧
    (∃ res db2, modelDelete schC3w dbC3w c3wr none 5 = .ok (res, db2) ∧
      (can_hard_delete schC3w dbC3w c3wr = true →
        lookupRec db2 c3wr.model c3wr.pk = none) ∧
      (can_hard_delete schC3w dbC3w c3wr = false →
        res = (1, [(c3wr.model, 1)]) ∧
        ∃ r2, lookupRec db2 c3wr.model c3wr.pk = some r2 ∧ r2.deleted = 5)) :=
  ⟨⟨by decide, by decide⟩, c3_nocascade_fallback schC3w dbC3w c3wr 5 (by decide) (by decide)⟩

/-- Counterexample to claim C4 as stated. With a soft-deleted root and one
already-soft-deleted SET_NULL-referencing row, perform_updates still executes
the group's bulk update, with the soft-deleted row's pk in the
affected-instance list (the group is not dropped either, although the
exclusion would have emptied it): the exclusion the claim describes never
reaches the executed operation. -/
theorem c4_counterexample : ¬ c4_claim_exclusion schC4 dbC4 [c4root] := by
  unfold c4_claim_exclusion
  decide

/-- Per-record bulk update leaves a soft-deleted row of a safedelete model
unchanged, because the update runs through the default INVISIBLE manager. -/
theorem bulkUpdateOne_deleted (sch : Schema) (m : Nat) (pks : List Nat) (r : Record)
    (hpb : is_safedelete_cls sch r.model = true) (hdel : is_deleted r = true) :
    bulkUpdateOne sch m pks r = r := by
  unfold bulkUpdateOne
  rw [if_neg]
  rintro ⟨h1, -, h3⟩
  have h4 : is_safedelete_cls sch m = true := h1 ▸ hpb
  have h5 := h3 h4
  rw [hdel] at h5
  exact Bool.noConfusion h5

/-- Claim C4 as amended (corrected). perform_updates does not filter
already-soft-deleted instances out of the executed pk lists, nor does it
drop groups the exclusion would empty; instead each bulk update runs through
the model's default manager, whose INVISIBLE visibility restricts it to rows
with deleted == sentinel, so a soft-deleted row of a policy-bearing model is
never rewritten: it is still present, bit for bit, at its position after
perform_updates. -/
theorem c4_updates_spare_deleted (sch : Schema) (db : DB) (objs : List Record)
    (i : Nat) (h : i < db.length)
    (hpb : is_safedelete_cls sch (db.get ⟨i, h⟩).model = true)
    (hdel : is_deleted (db.get ⟨i, h⟩) = true) :
    ∃ h2 : i < (perform_updates sch db objs).1.length,
      (perform_updates sch db objs).1.get ⟨i, h2⟩ = db.get ⟨i, h⟩ := by
  unfold perform_updates
  generalize fieldUpdates sch db objs = gs
  suffices H : ∀ (gl : List (Nat × List Record)) (acc : DB × List (Nat × List Nat)),
      (∃ h2 : i < acc.1.length, acc.1.get ⟨i, h2⟩ = db.get ⟨i, h⟩) →
      ∃ h2 : i < (gl.foldl (performUpdatesStep sch) acc).1.length,
        (gl.foldl (performUpdatesStep sch) acc).1.get ⟨i, h2⟩ = db.get ⟨i, h⟩ by
    exact H gs (db, []) ⟨h, rfl⟩
  intro gl
  induction gl with
  | nil =>
      intro acc hacc
      simpa using hacc
  | cons g gs2 ih =>
      intro acc hacc
      simp only [List.foldl_cons]
      apply ih
      obtain ⟨h2, heq⟩ := hacc
      have hlen : i < (performUpdatesStep sch acc g).1.length := by
        unfold performUpdatesStep applyBulkUpdate
        simpa using h2
      refine ⟨hlen, ?_⟩
      show (applyBulkUpdate sch acc.1 g.1 (g.2.map (·.pk))).get ⟨i, _⟩ = db.get ⟨i, h⟩
      unfold applyBulkUpdate
      simp only [List.get_eq_getElem, List.getElem_map, Fin.val_mk] at heq ⊢
      rw [heq]
      exact bulkUpdateOne_deleted sch g.1 (g.2.map (·.pk)) _ hpb hdel

/-- Witness for amended claim C4: the soft-deleted SET_NULL-referencing row
of the counterexample database is untouched by perform_updates. -/
theorem c4_updates_spare_deleted_witness :
    (is_safedelete_cls schC4 ((dbC4.get ⟨1, by decide⟩).model) = true ∧
      is_deleted (dbC4.get ⟨1, by decide⟩) = true) ∧
    (∃ h2 : 1 < (perform_updates schC4 dbC4 [c4root]).1.length,
      (perform_updates schC4 dbC4 [c4root]).1.get ⟨1, h2⟩ = dbC4.get ⟨1, by decide⟩) :=
  ⟨⟨by decide, by decide⟩,
   c4_updates_spare_deleted schC4 dbC4 [c4root] 1 (by decide) (by decide) (by decide)⟩

end Safedelete
